import Mathlib

/-!
Shallow embedding of `emailtools.py` (module `emailtools`, version 1.1.0).

The file models the two classes of the source, `Email` (a MIME message
builder) and `EmailServer` (an SMTP transport), as pure Lean functions over
explicit state, and proves the behavioural properties stated in the
repository's specification.

Modelling conventions:
* Python machine-level collaborators that the spec declares out of scope
  (the SMTP socket, the PIL PNG codec, the `email` package's wire
  serialization) are represented abstractly: an image is its byte payload,
  a MIME message is its header list plus its part list.
* Python `dict`s appear as insertion-ordered association lists with unique
  keys, which matches CPython's iteration order guarantees.
* Python exceptions are represented by the `Except` monad with a `PyErr`
  error type recording the exception class and message.
-/

/-- Python exception values raised by the source: `KeyError` (missing mapping
key), `TypeError` (unsupported content or non-iterable row), `ValueError`
(no recipients). -/
inductive PyErr where
  | keyError (key : String)
  | typeError (msg : String)
  | valueError (msg : String)
deriving DecidableEq, Repr

/-- Model of the dynamically typed Python values that may be handed to
`Email.sequence` and `Email.addTable`.  `str` and `list` are the
`collections.abc.Sequence` instances of interest; `int` stands for a
non-sequence scalar; `image` is a PIL image carrying its abstract pixel
payload; `dataframe` is a pandas DataFrame carrying its column labels and
its rows; `other` is an opaque object of an unsupported, non-sequence,
non-iterable type, carried as its bare type name and its `str()` rendering. -/
inductive PyObj where
  | str (s : String)
  | int (n : Int)
  | list (xs : List PyObj)
  | image (data : List Nat)
  | dataframe (cols : List PyObj) (vals : List (List PyObj))
  | other (typeBare : String) (strForm : String)

/-- Bare type name, as in Python `type(x).__name__`. -/
def pyTypeBare : PyObj → String
  | .str _ => "str"
  | .int _ => "int"
  | .list _ => "list"
  | .image _ => "Image"
  | .dataframe _ _ => "DataFrame"
  | .other t _ => t

/-- Rendering of `type(x)` inside an f-string, as in CPython:
`f"{type(1)}"` gives `<class 'int'>`. -/
def pyTypeName (x : PyObj) : String :=
  "<class '" ++ pyTypeBare x ++ "'>"

mutual

/-- Python `str(x)` as used by the f-string `f"<td>{i}</td>"` of
`Email.addTable`.  Strings render as themselves, integers in decimal,
lists via `repr`.  The renderings of images and dataframes delegate to the
out-of-scope collaborator libraries and are carried opaquely. -/
def pyStr : PyObj → String
  | .str s => s
  | .int n => toString n
  | .list xs => "[" ++ String.intercalate ", " (pyReprElems xs) ++ "]"
  | .image _ => "<image>"
  | .dataframe _ _ => "<dataframe>"
  | .other _ r => r

/-- Python `repr(x)` for elements shown inside a list rendering.  String
escape sequences inside the quotes are elided; no claim exercises them. -/
def pyRepr : PyObj → String
  | .str s => "'" ++ s ++ "'"
  | .int n => toString n
  | .list xs => "[" ++ String.intercalate ", " (pyReprElems xs) ++ "]"
  | .image _ => "<image>"
  | .dataframe _ _ => "<dataframe>"
  | .other _ r => r

/-- The `repr` of each element of a list, in order. -/
def pyReprElems : List PyObj → List String
  | [] => []
  | x :: xs => pyRepr x :: pyReprElems xs

end

/-- Python iteration `for i in x`: `list` yields its elements, `str` yields
its characters as one-character strings, a DataFrame yields its column
labels; integers, images and opaque unsupported objects are not iterable
(`none` models the raised `TypeError`). -/
def pyIter : PyObj → Option (List PyObj)
  | .list xs => some xs
  | .str s => some (s.data.map (fun c => PyObj.str (String.mk [c])))
  | .dataframe cols _ => some cols
  | .int _ => none
  | .image _ => none
  | .other _ _ => none

/-- Python `isinstance(x, collections.abc.Sequence)` restricted to the
constructors of `PyObj`: `str` and `list` are Sequences; ints, PIL images,
DataFrames and the opaque unsupported objects modelled by `other` are not. -/
def pyIsSequence : PyObj → Bool
  | .str _ => true
  | .list _ => true
  | _ => false

/-- Python `s.isascii()`: every code point is below 128. -/
def pyIsAscii (s : String) : Bool :=
  s.data.all (fun c => c.toNat < 128)

/-- Python `str.lstrip()` whitespace test.  The source strips ASCII
whitespace plus vertical tab and form feed; the further Unicode space code
points that CPython also strips are immaterial to every claim and elided. -/
def pyIsSpace (c : Char) : Bool :=
  c.isWhitespace || c = '\x0b' || c = '\x0c'

/-- Python `str.lstrip()`: drop the leading whitespace characters. -/
def pyLstrip (s : String) : String :=
  String.mk (s.data.dropWhile pyIsSpace)

/-- Index of the first space character, if any (Python `s.find(" ")`
returns this index, or `-1` when `none`). -/
def idxOfSpace : List Char → Option Nat
  | [] => none
  | c :: cs => if c = ' ' then some 0 else (idxOfSpace cs).map (· + 1)

/-- Python `re` word-character test `\w` on the ASCII range
(letter, digit or underscore).  CPython's `\w` additionally covers
non-ASCII letters and digits; every input any claim exercises is ASCII. -/
def isWordChar (c : Char) : Bool :=
  c.isAlphanum || c = '_'

/-- Tail of the regex `HEAD_RE = ^\W*#+ .*$` after the mandatory space:
`.*$` accepts any characters without a newline, except that `$` also
matches just before one trailing newline. -/
def headTail : List Char → Bool
  | [] => true
  | c :: rest => if c = '\n' then rest.isEmpty else headTail rest

/-- Scanner for `HEAD_RE = re.compile(r"^\W*#+ .*$")` used by
`Email.addText`: the input matches iff some split point has only non-word
characters before it, a `'#'` at it, a space after it, and a `$`-acceptable
tail.  (Since `'#'` is itself a non-word character, a run `#+` can always
be shortened to its last `'#'`, so one `'#'` at the split point suffices.) -/
def headScan : List Char → Bool
  | [] => false
  | c :: rest =>
    if isWordChar c then false
    else
      (c = '#' && (match rest with
                   | ' ' :: tail => headTail tail
                   | _ => false))
      || headScan rest

/-- Boolean outcome of `HEAD_RE.match(text)`. -/
def headMatch (text : String) : Bool :=
  headScan text.data

/-- UTF-8 encoding of one code point, as in Python `str.encode("utf-8")`. -/
def utf8Char (c : Char) : List Nat :=
  let n := c.toNat
  if n < 0x80 then [n]
  else if n < 0x800 then
    [0xC0 ||| (n >>> 6), 0x80 ||| (n &&& 0x3F)]
  else if n < 0x10000 then
    [0xE0 ||| (n >>> 12), 0x80 ||| ((n >>> 6) &&& 0x3F), 0x80 ||| (n &&& 0x3F)]
  else
    [0xF0 ||| (n >>> 18), 0x80 ||| ((n >>> 12) &&& 0x3F),
     0x80 ||| ((n >>> 6) &&& 0x3F), 0x80 ||| (n &&& 0x3F)]

/-- Python `name.encode("utf-8")` as a byte list. -/
def utf8Encode (s : String) : List Nat :=
  s.data.flatMap utf8Char

/-- The base64 alphabet, indexed 0 to 63. -/
def b64Alphabet : List Char :=
  "ABCDEFGHIJKLMNOPQRSTUVWXYZabcdefghijklmnopqrstuvwxyz0123456789+/".data

/-- Character of the base64 alphabet at a 6-bit index. -/
def b64Digit (n : Nat) : Char :=
  b64Alphabet.getD n 'A'

/-- Standard base64 of a byte list with `=` padding, as in Python
`base64.b64encode(...).decode("ascii")`. -/
def b64Chars : List Nat → List Char
  | [] => []
  | [a] =>
      [b64Digit (a >>> 2), b64Digit ((a &&& 3) <<< 4), '=', '=']
  | [a, b] =>
      [b64Digit (a >>> 2), b64Digit (((a &&& 3) <<< 4) ||| (b >>> 4)),
       b64Digit ((b &&& 15) <<< 2), '=']
  | a :: b :: c :: rest =>
      [b64Digit (a >>> 2), b64Digit (((a &&& 3) <<< 4) ||| (b >>> 4)),
       b64Digit (((b &&& 15) <<< 2) ||| (c >>> 6)), b64Digit (c &&& 63)]
      ++ b64Chars rest

/-- Base64 of a byte list, as a string. -/
def b64Encode (bytes : List Nat) : String :=
  String.mk (b64Chars bytes)

/-- One part attached to the MIME multipart root: either the HTML body
(`MIMEText(html, "html", "utf-8")`) or an inline image
(`MIMEImage(data)` carrying its `Content-ID` header value). -/
inductive MIMEPart where
  | text (html : String)
  | image (contentId : String) (data : List Nat)
deriving DecidableEq, Repr

/-- The `MIMEMultipart` root of a message: its explicitly set headers, in
the order `__setitem__` appended them (the `email` package appends, it does
not replace), and its attached parts in attachment order.  The container's
own implicit `Content-Type`/`MIME-Version` headers are constant and
elided. -/
structure MIMEMsg where
  headers : List (String × String)
  parts : List MIMEPart
deriving DecidableEq, Repr

/-- The `Email` builder state: the `MIMEMultipart` root, the ordered HTML
element list, the stored `(index, png-bytes)` image list, the running image
counter and the subject. -/
structure Email where
  root : MIMEMsg
  elementList : List String
  imageList : List (Nat × List Nat)
  imageCount : Nat
  subject : String
deriving DecidableEq, Repr

/-- `Email.__init__(subject)`. -/
def Email.init (subject : String) : Email :=
  { root := { headers := [], parts := [] }
    elementList := []
    imageList := []
    imageCount := 0
    subject := subject }

/-- `Email.addHead(text, level)`: appends `<h{level}>text</h{level}>`. -/
def Email.addHead (e : Email) (text : String) (level : Nat) : Email :=
  { e with elementList := e.elementList ++
      ["<h" ++ toString level ++ ">" ++ text ++ "</h" ++ toString level ++ ">"] }

/-- `Email.addParagraph(text)`: appends `<p>text</p>`. -/
def Email.addParagraph (e : Email) (text : String) : Email :=
  { e with elementList := e.elementList ++ ["<p>" ++ text ++ "</p>"] }

/-- `Email.addText(text)`: on a `HEAD_RE` match, strips leading whitespace,
sets `level := head.find(" ") + 1`, strips the first `level` characters and
further whitespace, and routes to `addHead`; otherwise routes to
`addParagraph`.  (Note the source uses the same number both as the slice
offset and as the header level.) -/
def Email.addText (e : Email) (text : String) : Email :=
  if headMatch text then
    let head := pyLstrip text
    let level : Nat :=
      match idxOfSpace head.data with
      | some i => i + 1
      | none => 0
    let head2 := pyLstrip (String.mk (head.data.drop level))
    e.addHead head2 level
  else
    e.addParagraph text

/-- One table cell `f"<td>{i}</td>"`. -/
def tdCell (i : PyObj) : String :=
  "<td>" ++ pyStr i ++ "</td>"

/-- The `<caption>` element list for an optional caption. -/
def captionElems : Option String → List String
  | some c => ["<caption>" ++ c ++ "</caption>"]
  | none => []

/-- The `<thead>` element list for an optional header row. -/
def headElems : Option (List PyObj) → List String
  | some h => ["<thead><tr>"] ++ h.map tdCell ++ ["</tr></thead>"]
  | none => []

/-- The `<tr>` elements of the table body: each row is iterated and its
cells rendered; a non-iterable row raises `TypeError` before anything is
committed (the source accumulates into a local list and extends
`elementList` only at the end). -/
def rowsHtml : List PyObj → Except PyErr (List String)
  | [] => Except.ok []
  | row :: rest =>
    match pyIter row with
    | none => Except.error (.typeError ("'" ++ pyTypeBare row ++ "' object is not iterable"))
    | some cells =>
      match rowsHtml rest with
      | Except.ok rs => Except.ok (["<tr>"] ++ cells.map tdCell ++ ["</tr>"] ++ rs)
      | Except.error err => Except.error err

/-- `Email.addTable(content, head, caption)`: renders the table and extends
`elementList` atomically; a non-iterable row surfaces as the `TypeError`
CPython would raise, leaving the builder unchanged. -/
def Email.addTable (e : Email) (content : List PyObj)
    (head : Option (List PyObj)) (caption : Option String) : Except PyErr Email :=
  match rowsHtml content with
  | Except.error err => Except.error err
  | Except.ok rows => Except.ok
      { e with elementList := e.elementList ++
          ["<table border=\"1\" cellspacing=\"0\" cellpadding=\"0\">"]
          ++ captionElems caption ++ headElems head
          ++ ["<tbody>"] ++ rows ++ ["</tbody>", "</table>"] }

/-- The PIL PNG codec (`img.save(buf, "png")`) is an out-of-scope
collaborator consumed as a black box; the abstract payload carried by the
image stands for its encoded bytes. -/
def pngEncode (img : List Nat) : List Nat :=
  img

/-- The inline image element appended for image index `n`:
`<p><img src="cid:img{n}"/></p>`. -/
def imgTag (n : Nat) : String :=
  "<p><img src=\"cid:img" ++ toString n ++ "\"/></p>"

/-- `Email.addImage(img)`: appends the `<img>` element for the current
counter value, stores `(counter, png-bytes)` and increments the counter. -/
def Email.addImage (e : Email) (img : List Nat) : Email :=
  { e with
      elementList := e.elementList ++ [imgTag e.imageCount]
      imageList := e.imageList ++ [(e.imageCount, pngEncode img)]
      imageCount := e.imageCount + 1 }

/-- `Email.addDataFrame(df, caption)`: `header = list(df.columns)`,
`body = df.values.tolist()`, then `addTable(body, head=header,
caption=caption)`.  Every row of `body` is a list, hence iterable. -/
def Email.addDataFrame (e : Email) (cols : List PyObj)
    (vals : List (List PyObj)) (caption : Option String) : Except PyErr Email :=
  e.addTable (vals.map PyObj.list) (some cols) caption

/-- The `HTML_CSS` constant of the source, verbatim. -/
def HTML_CSS : String :=
  "\ntable \x7b\n  border-collapse: collapse;\n  border: 2px solid rgb(140 140 140);\n  font-family: sans-serif;\n  font-size: 0.8rem;\n  letter-spacing: 1px;\n\x7d\ncaption \x7b\n  caption-side: top;\n  padding: 10px;\n  font-weight: bold;\n\x7d\nthead,\ntfoot \x7b\n  background-color: rgb(228 240 245);\n\x7d\nth,\ntd \x7b\n  border: 1px solid rgb(160 160 160);\n  padding: 8px 10px;\n  text-align: center;\n\x7d\ntbody > tr:nth-of-type(even) \x7b\n  background-color: rgb(237 238 242);\n\x7d\n"

/-- The HTML document assembled by `Email.toBytes`, with the exact
whitespace of the source's triple-quoted f-string. -/
def htmlBody (elems : List String) : String :=
  "<html>\n        <head><style>" ++ HTML_CSS ++ "</style></head>\n        <body>\n        "
  ++ String.intercalate "\n" elems
  ++ "\n        </body></html>"

/-- The `MIMEImage` parts attached by `Email.toBytes`, in image-list order,
each with `Content-ID` header `<img{num}>`. -/
def imagePartsOf (e : Email) : List MIMEPart :=
  e.imageList.map (fun p => MIMEPart.image ("<img" ++ toString p.1 ++ ">") p.2)

/-- `Email.toBytes()`: appends a `Subject` header, attaches the HTML body,
then attaches each stored image, and returns the (mutated) builder together
with the serialized message, modelled by the final root.  Nothing is
cached: `elementList`, `imageList` and `imageCount` are untouched, so a
second call re-attaches everything. -/
def Email.toBytes (e : Email) : Email × MIMEMsg :=
  let root2 : MIMEMsg :=
    { headers := e.root.headers ++ [("Subject", e.subject)]
      parts := e.root.parts ++ [MIMEPart.text (htmlBody e.elementList)] ++ imagePartsOf e }
  ({ e with root := root2 }, root2)

/-- Truthiness of `i` and `isinstance(i[0], Sequence)` combined, as in the
source's `if bool(i) and isinstance(i[0], Sequence)`. -/
def seqIs2D : List PyObj → Bool
  | [] => false
  | h :: _ => pyIsSequence h

/-- Whether `Email.sequence` recognizes the item: `str`, `Sequence`
(non-str), PIL `Image` or pandas `DataFrame`. -/
def supportedItem : PyObj → Bool
  | .str _ => true
  | .list _ => true
  | .image _ => true
  | .dataframe _ _ => true
  | .int _ => false
  | .other _ _ => false

/-- The loop body of `Email.sequence`: dispatch one item by type to
`addText` / `addTable` / `addImage` / `addDataFrame`, or raise `TypeError`
for anything unrecognized. -/
def seqStep (e : Email) (i : PyObj) : Except PyErr Email :=
  match i with
  | .str s => Except.ok (e.addText s)
  | .list xs =>
      if seqIs2D xs then e.addTable xs none none
      else e.addTable [PyObj.list xs] none none
  | .image img => Except.ok (e.addImage img)
  | .dataframe cols vals => e.addDataFrame cols vals none
  | .int _ => Except.error (.typeError ("This type " ++ pyTypeName i ++ " cannot append to email."))
  | .other _ _ => Except.error (.typeError ("This type " ++ pyTypeName i ++ " cannot append to email."))

/-- The item loop of `Email.sequence`; the first raised error propagates. -/
def seqGo (e : Email) : List PyObj → Except PyErr Email
  | [] => Except.ok e
  | i :: rest =>
    match seqStep e i with
    | Except.ok e2 => seqGo e2 rest
    | Except.error err => Except.error err

/-- `Email.sequence(subject, *items)`. -/
def Email.sequence (subject : String) (items : List PyObj) : Except PyErr Email :=
  seqGo (Email.init subject) items

/-- `Email._encodeNikename(name)`: an ASCII name is returned unchanged; a
non-ASCII name is UTF-8 encoded, base64 encoded, and wrapped in the quoted
MIME encoded-word form `"=?utf-8?B?...?="`. -/
def Email.encodeNikename (name : String) : String :=
  if pyIsAscii name then name
  else "\"=?utf-8?B?" ++ b64Encode (utf8Encode name) ++ "?=\""

/-- `Email._setSender(name, addr)`: appends a `From` header
`{enc(name)} <{addr}>` (the `Header(..., "ascii")` wrapper renders ASCII
content unchanged). -/
def Email.setSender (e : Email) (name : String) (addr : String) : Email :=
  { e with root := { e.root with headers := e.root.headers ++
      [("From", Email.encodeNikename name ++ " <" ++ addr ++ ">")] } }

/-- `Email._setReceivers(receivers)`: appends a `To` header joining
`{enc(name)} <{addr}>` over the entries with `;`. -/
def Email.setReceivers (e : Email) (receivers : List (String × String)) : Email :=
  { e with root := { e.root with headers := e.root.headers ++
      [("To", String.intercalate ";"
          (receivers.map (fun p => Email.encodeNikename p.2 ++ " <" ++ p.1 ++ ">")))] } }

/-- A JSON value occurring in the configuration file: a string scalar or a
string-to-string object (the `receivers` mapping). -/
inductive CfgVal where
  | jstr (s : String)
  | jmap (m : List (String × String))
deriving DecidableEq, Repr

/-- Use of a configuration value as a string.  CPython stores the value
unvalidated; a non-string would only misbehave later inside the SMTP
library, which is out of scope and unexercised by every claim. -/
def cfgStr : CfgVal → String
  | .jstr s => s
  | .jmap _ => ""

/-- Use of a configuration value as the receivers mapping.  CPython stores
the value unvalidated; a non-object would only misbehave later inside
`send`, which no claim exercises. -/
def cfgMap : CfgVal → List (String × String)
  | .jmap m => m
  | .jstr _ => []

/-- The `EmailServer` transport state.  The SSL SMTP session established by
the constructor is the out-of-scope transport collaborator; the password is
consumed by `login` and not stored. -/
structure EmailServer where
  host : String
  userName : String
  userAddr : String
  defaultReceivers : Option (List (String × String))
deriving DecidableEq, Repr

/-- `EmailServer.__init__(host, userName, userAddr, key)`: stores the
connection parameters, logs in over SSL (out of scope), and leaves
`defaultReceivers` unset (`None`). -/
def EmailServer.mkServer (host userName userAddr _key : String) : EmailServer :=
  { host := host, userName := userName, userAddr := userAddr, defaultReceivers := none }

/-- `EmailServer.initFromJson(filePath)` after `json.load`: each
subscript `cfg[...]` raises `KeyError` on a missing key, evaluated left to
right (`host`, `name`, `addr`, `key`), then the constructor runs, then
`cfg.pop("receivers")`.  The source's `except IndexError` clause never
matches a `KeyError` (in Python `KeyError` is not an `IndexError`), so a
missing key always propagates as a raised `KeyError`. -/
def EmailServer.initFromJson (cfg : List (String × CfgVal)) : Except PyErr EmailServer :=
  match cfg.lookup "host" with
  | none => Except.error (.keyError "host")
  | some h =>
    match cfg.lookup "name" with
    | none => Except.error (.keyError "name")
    | some n =>
      match cfg.lookup "addr" with
      | none => Except.error (.keyError "addr")
      | some a =>
        match cfg.lookup "key" with
        | none => Except.error (.keyError "key")
        | some k =>
          match cfg.lookup "receivers" with
          | none => Except.error (.keyError "receivers")
          | some r =>
            Except.ok { EmailServer.mkServer (cfgStr h) (cfgStr n) (cfgStr a) (cfgStr k) with
                          defaultReceivers := some (cfgMap r) }

/-- Python truthiness of the optional recipients mapping: `None` and the
empty dict are falsy. -/
def truthyRcv : Option (List (String × String)) → Bool
  | some r => !r.isEmpty
  | none => false

/-- The envelope and payload handed to `smtplib.SMTP_SSL.sendmail`. -/
structure SentMail where
  envFrom : String
  envRcpts : List String
  payload : MIMEMsg
deriving DecidableEq, Repr

/-- `EmailServer.send(mail, receivers)`: stamps the `From` header first,
then resolves the effective recipients (`if receivers: ... elif
bool(self.defaultReceivers): ... else: raise ValueError`), stamps the `To`
header, serializes with `toBytes` and submits.  The returned `Email` is the
state of the (mutated) builder after the call, whether or not it raised. -/
def EmailServer.send (srv : EmailServer) (mail : Email)
    (receivers : Option (List (String × String))) : Email × Except PyErr SentMail :=
  let mail1 := mail.setSender srv.userName srv.userAddr
  let eff : Option (List (String × String)) :=
    if truthyRcv receivers then receivers
    else if truthyRcv srv.defaultReceivers then srv.defaultReceivers
    else none
  match eff with
  | none => (mail1, Except.error (.valueError "No receivers specified."))
  | some r =>
    let mail2 := mail1.setReceivers r
    let res := mail2.toBytes
    (res.1, Except.ok { envFrom := srv.userAddr, envRcpts := r.map Prod.fst, payload := res.2 })

-- The source's `EmailServer.__del__` closes the session: out of scope (network).

/-- The builder operations a caller may perform between construction and
serialization, used to quantify over all reachable builder states. -/
inductive BuildOp where
  | opHead (text : String) (level : Nat)
  | opParagraph (text : String)
  | opText (text : String)
  | opTable (content : List PyObj) (head : Option (List PyObj)) (caption : Option String)
  | opImage (img : List Nat)

/-- Apply one builder operation.  A raising `addTable` call leaves the
builder unchanged (the source extends `elementList` only after the whole
table is rendered). -/
def applyOp (e : Email) : BuildOp → Email
  | .opHead t l => e.addHead t l
  | .opParagraph t => e.addParagraph t
  | .opText t => e.addText t
  | .opTable c h cap =>
    match e.addTable c h cap with
    | Except.ok e2 => e2
    | Except.error _ => e
  | .opImage img => e.addImage img

/-- Whether the operation is an `addImage` call. -/
def isImageOp : BuildOp → Bool
  | .opImage _ => true
  | _ => false

/-- The builder state after a fresh `Email(subject)` followed by a list of
operations. -/
def buildFold (subject : String) (ops : List BuildOp) : Email :=
  ops.foldl applyOp (Email.init subject)

/-- Iterate `Email.toBytes` on the same builder `k` times, keeping the
mutated state. -/
def iterBytes : Email → Nat → Email
  | e, 0 => e
  | e, k + 1 => iterBytes (e.toBytes).1 k

/-- Envelope sender and recipients of a send outcome, if it succeeded. -/
def envOf : Except PyErr SentMail → Option (String × List String)
  | Except.ok m => some (m.envFrom, m.envRcpts)
  | Except.error _ => none

/-- A fresh builder used by concrete witness instances. -/
def mail0 : Email :=
  Email.init "s"

/-- A transport with no default recipients, for witness instances. -/
def srvN : EmailServer :=
  { host := "smtp.x.com", userName := "U", userAddr := "u@x", defaultReceivers := none }

/-- A transport whose default recipient map has one entry, for witness and
counterexample instances. -/
def srvD : EmailServer :=
  { host := "smtp.x.com", userName := "U", userAddr := "u@x",
    defaultReceivers := some [("a@x", "A")] }

/-- The configuration used by the C2 witness: well-formed except that the
required `"key"` field is absent. -/
def cfgMissingKey : List (String × CfgVal) :=
  [("host", CfgVal.jstr "smtp.x.com"), ("name", CfgVal.jstr "N"),
   ("addr", CfgVal.jstr "a@x"), ("receivers", CfgVal.jmap [("r@x", "R")])]

/-- C1: the claim (and the source's own usage documentation, lines 24-25 of
`emailtools.py`: `## the header` becomes `<h2>the header</h2>`) says
`addText("## Header")` appends `<h2>Header</h2>`, the header level being the
number of `#` characters.  The code computes the level as
`head.find(" ") + 1`, one more than the `#` count, so it appends
`<h3>Header</h3>` instead. -/
theorem addText_levelOffByOne :
    ((Email.init "s").addText "## Header").elementList = ["<h3>Header</h3>"]
    ∧ "<h3>Header</h3>" ≠ "<h2>Header</h2>" :=
  ⟨rfl, by decide⟩

/-- C2: for every parsed configuration mapping missing one of the required
keys `host`, `name`, `addr`, `key`, loading fails with a raised `KeyError`
(the spec's `ConfigFormatError` kind) naming a missing key, rather than
returning a malformed transport: the source's `except IndexError` clause
cannot intercept a `KeyError`. -/
theorem initFromJson_missingKey (cfg : List (String × CfgVal)) (k : String)
    (hk : k = "host" ∨ k = "name" ∨ k = "addr" ∨ k = "key")
    (hmiss : cfg.lookup k = none) :
    ∃ k2, EmailServer.initFromJson cfg = Except.error (PyErr.keyError k2) := by
  cases h1 : cfg.lookup "host" with
  | none => exact ⟨"host", by simp [EmailServer.initFromJson, h1]⟩
  | some vh =>
    cases h2 : cfg.lookup "name" with
    | none => exact ⟨"name", by simp [EmailServer.initFromJson, h1, h2]⟩
    | some vn =>
      cases h3 : cfg.lookup "addr" with
      | none => exact ⟨"addr", by simp [EmailServer.initFromJson, h1, h2, h3]⟩
      | some va =>
        cases h4 : cfg.lookup "key" with
        | none => exact ⟨"key", by simp [EmailServer.initFromJson, h1, h2, h3, h4]⟩
        | some vk =>
          rcases hk with rfl | rfl | rfl | rfl <;> simp_all

/-- C2 witness: a concrete config with `host`, `name`, `addr`, `receivers`
present but `key` absent is rejected with a `KeyError`. -/
theorem initFromJson_missingKey_witness :
    ∃ k2, EmailServer.initFromJson cfgMissingKey = Except.error (PyErr.keyError k2) :=
  initFromJson_missingKey cfgMissingKey "key" (by decide) (by decide)

/-- C3 counterexample: the claim says that whenever an explicit recipient
map is given it is used.  With the explicit empty map and a configured
default, the code ignores the explicit map (`if receivers:` is falsy on an
empty dict) and sends to the default instead: the envelope recipients are
the default's address, not the explicit map's (empty) key set. -/
theorem send_explicitEmpty_counterexample :
    envOf ((srvD.send mail0 (some [])).2) = some ("u@x", ["a@x"])
    ∧ (["a@x"] : List String) ≠ [] :=
  ⟨rfl, by decide⟩

/-- C3 (amended): send with no explicit recipients argument and no
configured default fails with the no-recipients `ValueError`; an explicit
non-empty recipient map is used; with no explicit argument the stored
non-empty default is used. -/
theorem send_recipientResolution (srv : EmailServer) (mail : Email)
    (r d : List (String × String)) :
    (srv.defaultReceivers = none →
      (srv.send mail none).2 = Except.error (PyErr.valueError "No receivers specified."))
    ∧ (r ≠ [] →
      envOf ((srv.send mail (some r)).2) = some (srv.userAddr, r.map Prod.fst))
    ∧ (srv.defaultReceivers = some d → d ≠ [] →
      envOf ((srv.send mail none).2) = some (srv.userAddr, d.map Prod.fst)) := by
  refine ⟨?_, ?_, ?_⟩
  · intro h
    simp [EmailServer.send, truthyRcv, h]
  · intro h
    have hr : r.isEmpty = false := by simp [List.isEmpty_iff, h]
    simp [EmailServer.send, truthyRcv, hr, envOf]
  · intro h hd
    have hr : d.isEmpty = false := by simp [List.isEmpty_iff, hd]
    simp [EmailServer.send, truthyRcv, h, hr, envOf]

/-- C3 witness: the three amended branches at concrete transports. -/
theorem send_recipientResolution_witness :
    (srvN.send mail0 none).2 = Except.error (PyErr.valueError "No receivers specified.")
    ∧ envOf ((srvN.send mail0 (some [("b@y", "B")])).2) = some ("u@x", ["b@y"])
    ∧ envOf ((srvD.send mail0 none).2) = some ("u@x", ["a@x"]) :=
  ⟨(send_recipientResolution srvN mail0 [("b@y", "B")] []).1 rfl,
   (send_recipientResolution srvN mail0 [("b@y", "B")] []).2.1 (by decide),
   (send_recipientResolution srvD mail0 [] [("a@x", "A")]).2.2 rfl (by decide)⟩

/-- C8: an explicit but empty recipient map is treated exactly as an absent
argument: the whole call is equal to the call with no recipients argument,
it falls back to the stored default, and it raises the no-recipients
`ValueError` precisely when the default is also absent or empty. -/
theorem send_emptyExplicitFallsBack (srv : EmailServer) (mail : Email)
    (d : List (String × String)) :
    (srv.send mail (some []) = srv.send mail none)
    ∧ ((srv.defaultReceivers = none ∨ srv.defaultReceivers = some []) →
        (srv.send mail (some [])).2 = Except.error (PyErr.valueError "No receivers specified."))
    ∧ (srv.defaultReceivers = some d → d ≠ [] →
        envOf ((srv.send mail (some [])).2) = some (srv.userAddr, d.map Prod.fst)) := by
  refine ⟨rfl, ?_, ?_⟩
  · rintro (h | h) <;> simp [EmailServer.send, truthyRcv, h]
  · intro h hd
    have hr : d.isEmpty = false := by simp [List.isEmpty_iff, hd]
    simp [EmailServer.send, truthyRcv, h, hr, envOf]

/-- C8 witness: the empty explicit map at a transport without and with a
configured default. -/
theorem send_emptyExplicitFallsBack_witness :
    (srvN.send mail0 (some []) = srvN.send mail0 none)
    ∧ (srvN.send mail0 (some [])).2 = Except.error (PyErr.valueError "No receivers specified.")
    ∧ envOf ((srvD.send mail0 (some [])).2) = some ("u@x", ["a@x"]) :=
  ⟨(send_emptyExplicitFallsBack srvN mail0 []).1,
   (send_emptyExplicitFallsBack srvN mail0 []).2.1 (Or.inl rfl),
   (send_emptyExplicitFallsBack srvD mail0 [("a@x", "A")]).2.2 rfl (by decide)⟩

/-- C9: a send call that fails with the no-recipients error has already
mutated the message: its builder state after the call carries a new `From`
header with the transport's sender name and address, so the message is not
left unchanged on error. -/
theorem send_mutatesFromOnError (srv : EmailServer) (mail : Email)
    (rcv : Option (List (String × String))) (err : PyErr)
    (h : (srv.send mail rcv).2 = Except.error err) :
    (srv.send mail rcv).1.root.headers
      = mail.root.headers
        ++ [("From", Email.encodeNikename srv.userName ++ " <" ++ srv.userAddr ++ ">")]
    ∧ (srv.send mail rcv).1.root.headers ≠ mail.root.headers := by
  rcases heff : (if truthyRcv rcv then rcv
                 else if truthyRcv srv.defaultReceivers then srv.defaultReceivers
                 else none) with _ | r
  · constructor
    · simp [EmailServer.send, heff, Email.setSender]
    · intro hEq
      have hlen := congrArg List.length hEq
      simp [EmailServer.send, heff, Email.setSender] at hlen
  · exfalso
    simp [EmailServer.send, heff] at h

/-- C9 witness: the failing call on a transport with no default leaves the
`From` header stamped on the previously header-free message. -/
theorem send_mutatesFromOnError_witness :
    (srvN.send mail0 none).1.root.headers = [("From", "U <u@x>")]
    ∧ (srvN.send mail0 none).1.root.headers ≠ mail0.root.headers := by
  have h := send_mutatesFromOnError srvN mail0 none
    (PyErr.valueError "No receivers specified.") rfl
  exact ⟨by rw [h.1]; rfl, h.2⟩

/-- C5: the `To` header appended by `_setReceivers` is the `;`-join, in map
order, of one `{name} <{addr}>` entry per recipient, where an ASCII display
name appears unchanged and a non-ASCII display name is replaced by its
quoted base64 MIME encoded word `"=?utf-8?B?...?="`. -/
theorem receivers_header_format (e : Email) (rcv : List (String × String)) :
    (Email.setReceivers e rcv).root.headers
      = e.root.headers
        ++ [("To", String.intercalate ";"
              (rcv.map (fun p => Email.encodeNikename p.2 ++ " <" ++ p.1 ++ ">")))]
    ∧ (∀ name, pyIsAscii name = true → Email.encodeNikename name = name)
    ∧ (∀ name, pyIsAscii name = false →
        Email.encodeNikename name = "\"=?utf-8?B?" ++ b64Encode (utf8Encode name) ++ "?=\"") := by
  refine ⟨rfl, ?_, ?_⟩
  · intro name h
    simp [Email.encodeNikename, h]
  · intro name h
    simp [Email.encodeNikename, h]

/-- C5 witness: a two-entry map with an ASCII and a Chinese display name
renders as the expected joined header; the non-ASCII name's encoded word is
the concrete base64 of its UTF-8 bytes. -/
theorem receivers_header_format_witness :
    (Email.setReceivers mail0 [("a@x", "Ann"), ("b@y", "你")]).root.headers
      = [("To", "Ann <a@x>;\"=?utf-8?B?5L2g?=\" <b@y>")]
    ∧ Email.encodeNikename "Ann" = "Ann"
    ∧ pyIsAscii "你" = false := by
  have h := receivers_header_format mail0 [("a@x", "Ann"), ("b@y", "你")]
  refine ⟨?_, h.2.1 "Ann" (by decide), by decide⟩
  rw [h.1]
  rfl

/-- C10: a non-string flat sequence item (empty, or with a non-sequence
first element, so that `bool(i) and isinstance(i[0], Sequence)` is false)
is wrapped as the single row `(i,)` and rendered by `addTable` as a
one-row table, not rejected. -/
theorem sequence_flatWrapsRow (e : Email) (xs : List PyObj)
    (hflat : seqIs2D xs = false) :
    seqStep e (PyObj.list xs)
      = Except.ok { e with elementList := e.elementList
          ++ ["<table border=\"1\" cellspacing=\"0\" cellpadding=\"0\">", "<tbody>", "<tr>"]
          ++ (xs.map tdCell) ++ ["</tr>", "</tbody>", "</table>"] } := by
  simp [seqStep, hflat, Email.addTable, rowsHtml, pyIter, captionElems, headElems]

/-- C10 witness: the flat item `[1, 2]` becomes the one-row table with
cells `<td>1</td>` and `<td>2</td>`. -/
theorem sequence_flatWrapsRow_witness :
    seqIs2D [PyObj.int 1, PyObj.int 2] = false
    ∧ seqStep mail0 (PyObj.list [PyObj.int 1, PyObj.int 2])
      = Except.ok { mail0 with elementList :=
          ["<table border=\"1\" cellspacing=\"0\" cellpadding=\"0\">", "<tbody>", "<tr>",
           "<td>1</td>", "<td>2</td>", "</tr>", "</tbody>", "</table>"] } := by
  have h := sequence_flatWrapsRow mail0 [PyObj.int 1, PyObj.int 2] rfl
  exact ⟨rfl, h.trans rfl⟩

/-- Every error raised while rendering table rows is a `TypeError`. -/
theorem rowsHtml_error_typeError {c : List PyObj} {err : PyErr}
    (h : rowsHtml c = Except.error err) : ∃ m, err = PyErr.typeError m := by
  induction c with
  | nil => simp [rowsHtml] at h
  | cons row rest ih =>
    simp only [rowsHtml] at h
    cases hi : pyIter row with
    | none =>
      rw [hi] at h
      simp at h
      exact ⟨_, h.symm⟩
    | some cells =>
      rw [hi] at h
      cases hr : rowsHtml rest with
      | ok rs => rw [hr] at h; simp at h
      | error e2 =>
        rw [hr] at h
        simp at h
        subst h
        exact ih hr

/-- Every error raised by `addTable` is a `TypeError`. -/
theorem addTable_error_typeError {e : Email} {c : List PyObj}
    {hd : Option (List PyObj)} {cap : Option String} {err : PyErr}
    (h : e.addTable c hd cap = Except.error err) : ∃ m, err = PyErr.typeError m := by
  unfold Email.addTable at h
  cases hr : rowsHtml c with
  | ok rows => rw [hr] at h; simp at h
  | error e3 =>
    rw [hr] at h
    simp at h
    exact h ▸ rowsHtml_error_typeError hr

/-- Every error raised by the dispatch step of `sequence` is a
`TypeError`. -/
theorem seqStep_error_typeError {e : Email} {i : PyObj} {err : PyErr}
    (h : seqStep e i = Except.error err) : ∃ m, err = PyErr.typeError m := by
  cases i with
  | str s => simp [seqStep] at h
  | image img => simp [seqStep] at h
  | int n => simp [seqStep] at h; exact ⟨_, h.symm⟩
  | other t r => simp [seqStep] at h; exact ⟨_, h.symm⟩
  | list xs =>
    simp only [seqStep] at h
    by_cases h2 : seqIs2D xs = true
    · rw [if_pos h2] at h; exact addTable_error_typeError h
    · rw [if_neg h2] at h; exact addTable_error_typeError h
  | dataframe cols vals =>
    simp only [seqStep, Email.addDataFrame] at h
    exact addTable_error_typeError h

/-- An item of unrecognized type makes the dispatch step raise the exact
`TypeError` of the source. -/
theorem seqStep_unsupported (e : Email) (i : PyObj)
    (h : supportedItem i = false) :
    seqStep e i = Except.error
      (PyErr.typeError ("This type " ++ pyTypeName i ++ " cannot append to email.")) := by
  cases i <;> simp [supportedItem] at h <;> rfl

/-- If some item of the list is of unrecognized type, the sequence loop
raises a `TypeError`, whatever builder state it starts from. -/
theorem seqGo_unsupported (items : List PyObj) :
    ∀ e : Email, (∃ y ∈ items, supportedItem y = false) →
      ∃ m, seqGo e items = Except.error (PyErr.typeError m) := by
  induction items with
  | nil =>
    intro e h
    rcases h with ⟨y, hy, _⟩
    simp at hy
  | cons i rest ih =>
    intro e h
    cases hstep : seqStep e i with
    | error err =>
      obtain ⟨m, rfl⟩ := seqStep_error_typeError hstep
      exact ⟨m, by simp [seqGo, hstep]⟩
    | ok e2 =>
      rcases h with ⟨y, hy, hys⟩
      rcases List.mem_cons.mp hy with rfl | hmem
      · rw [seqStep_unsupported e y hys] at hstep
        exact absurd hstep (by simp)
      · obtain ⟨m, hm⟩ := ih e2 ⟨y, hmem, hys⟩
        exact ⟨m, by simp [seqGo, hstep, hm]⟩

/-- C4: the sequence constructor dispatches each item by type — strings to
`addText`, sequences to `addTable` (two-dimensional as given, flat wrapped
as one row), images to `addImage`, dataframes to `addDataFrame` — and an
item of any other type makes it fail with the source's `TypeError` (the
spec's `UnsupportedContentType` kind); a list containing such an item never
yields a builder. -/
theorem sequence_dispatch (subject : String) (items : List PyObj) (e : Email)
    (s : String) (xs : List PyObj) (img : List Nat)
    (cols : List PyObj) (vals : List (List PyObj)) (x : PyObj) :
    (seqStep e (PyObj.str s) = Except.ok (e.addText s))
    ∧ (seqStep e (PyObj.list xs)
        = if seqIs2D xs then e.addTable xs none none
          else e.addTable [PyObj.list xs] none none)
    ∧ (seqStep e (PyObj.image img) = Except.ok (e.addImage img))
    ∧ (seqStep e (PyObj.dataframe cols vals) = e.addDataFrame cols vals none)
    ∧ (supportedItem x = false →
        seqStep e x = Except.error
          (PyErr.typeError ("This type " ++ pyTypeName x ++ " cannot append to email.")))
    ∧ ((∃ y ∈ items, supportedItem y = false) →
        ∃ m, Email.sequence subject items = Except.error (PyErr.typeError m)) :=
  ⟨rfl, rfl, rfl, rfl, seqStep_unsupported e x,
   fun h => seqGo_unsupported items (Email.init subject) h⟩

/-- C4 witness: a dict-like object is unsupported, the step raises the
concrete `TypeError` message, and a sequence containing it fails. -/
theorem sequence_dispatch_witness :
    supportedItem (PyObj.other "dict" "d") = false
    ∧ seqStep mail0 (PyObj.other "dict" "d")
        = Except.error (PyErr.typeError "This type <class 'dict'> cannot append to email.")
    ∧ (∃ m, Email.sequence "s" [PyObj.other "dict" "d"]
          = Except.error (PyErr.typeError m)) := by
  have h := sequence_dispatch "s" [PyObj.other "dict" "d"] mail0 "" [] [] [] []
    (PyObj.other "dict" "d")
  refine ⟨rfl, ?_, h.2.2.2.2.2 ⟨PyObj.other "dict" "d", by simp, rfl⟩⟩
  exact (h.2.2.2.2.1 rfl).trans (congrArg Except.error (by decide))

/-- A successful `addTable` changes only `elementList`. -/
theorem addTable_ok_fields {e e2 : Email} {c : List PyObj}
    {hd : Option (List PyObj)} {cap : Option String}
    (h : e.addTable c hd cap = Except.ok e2) :
    e2.imageList = e.imageList ∧ e2.imageCount = e.imageCount ∧ e2.root = e.root := by
  unfold Email.addTable at h
  cases hr : rowsHtml c with
  | error e3 => rw [hr] at h; simp at h
  | ok rows =>
    rw [hr] at h
    simp at h
    subst h
    exact ⟨rfl, rfl, rfl⟩

/-- No builder operation touches the MIME root. -/
theorem applyOp_root (e : Email) (op : BuildOp) : (applyOp e op).root = e.root := by
  cases op with
  | opHead t l => rfl
  | opParagraph t => rfl
  | opImage img => rfl
  | opText t =>
    show (e.addText t).root = e.root
    unfold Email.addText
    split <;> rfl
  | opTable c hd cap =>
    cases ht : e.addTable c hd cap with
    | ok e2 =>
      simp only [applyOp, ht]
      exact (addTable_ok_fields ht).2.2
    | error err => simp only [applyOp, ht]

/-- Each builder operation advances the image counter by one exactly when
it is an `addImage` call. -/
theorem applyOp_count (e : Email) (op : BuildOp) :
    (applyOp e op).imageCount = e.imageCount + (if isImageOp op then 1 else 0) := by
  cases op with
  | opHead t l => simp [applyOp, Email.addHead, isImageOp]
  | opParagraph t => simp [applyOp, Email.addParagraph, isImageOp]
  | opImage img => simp [applyOp, Email.addImage, isImageOp]
  | opText t =>
    simp only [isImageOp, if_false, Nat.add_zero]
    show (e.addText t).imageCount = e.imageCount
    unfold Email.addText
    split <;> rfl
  | opTable c hd cap =>
    cases ht : e.addTable c hd cap with
    | ok e2 => simp [applyOp, ht, (addTable_ok_fields ht).2.1, isImageOp]
    | error err => simp [applyOp, ht, isImageOp]

/-- Folding operations preserves the index invariant: the stored image
indices are exactly `0, 1, ..., imageCount - 1` in order. -/
theorem foldl_imageInv (ops : List BuildOp) :
    ∀ e : Email, e.imageList.map Prod.fst = List.range e.imageCount →
      (ops.foldl applyOp e).imageList.map Prod.fst
        = List.range (ops.foldl applyOp e).imageCount := by
  induction ops with
  | nil => intro e h; simpa using h
  | cons op rest ih =>
    intro e h
    rw [List.foldl_cons]
    apply ih
    cases op with
    | opHead t l => exact h
    | opParagraph t => exact h
    | opImage img => simp [applyOp, Email.addImage, List.range_succ, h]
    | opText t =>
      show ((e.addText t).imageList.map Prod.fst = List.range (e.addText t).imageCount)
      unfold Email.addText
      split
      · exact h
      · exact h
    | opTable c hd cap =>
      cases ht : e.addTable c hd cap with
      | ok e2 =>
        have hf := addTable_ok_fields ht
        simp only [applyOp, ht]
        rw [hf.1, hf.2.1]
        exact h
      | error err =>
        simp only [applyOp, ht]
        exact h

/-- The MIME root survives any fold of builder operations. -/
theorem foldl_root (ops : List BuildOp) :
    ∀ e : Email, (ops.foldl applyOp e).root = e.root := by
  induction ops with
  | nil => intro e; rfl
  | cons op rest ih =>
    intro e
    rw [List.foldl_cons, ih, applyOp_root]

/-- The image counter after a fold counts exactly the `addImage` calls. -/
theorem foldl_count (ops : List BuildOp) :
    ∀ e : Email, (ops.foldl applyOp e).imageCount
      = e.imageCount + ops.countP isImageOp := by
  induction ops with
  | nil => intro e; simp
  | cons op rest ih =>
    intro e
    rw [List.foldl_cons, ih, applyOp_count, List.countP_cons]
    cases hb : isImageOp op
    · simp [hb]
    · simp [hb]
      omega

/-- C6: on every builder reachable from a fresh `Email`, the stored image
indices are unique and monotonically assigned `0, 1, 2, ...` (they equal
`List.range imageCount`, and `imageCount` counts the `addImage` calls);
each `addImage` call appends exactly one `<img>` element referencing
`cid:img{index}` and exactly one `(index, png)` entry; and serialization
attaches, after the body, exactly one image part per stored image, in
order, whose `Content-ID` is `<img{index}>`. -/
theorem image_index_invariant (subject : String) (ops : List BuildOp)
    (e2 : Email) (img : List Nat) :
    ((buildFold subject ops).imageList.map Prod.fst
        = List.range (buildFold subject ops).imageCount)
    ∧ ((buildFold subject ops).imageCount = ops.countP isImageOp)
    ∧ ((e2.addImage img).elementList = e2.elementList ++ [imgTag e2.imageCount]
        ∧ (e2.addImage img).imageList = e2.imageList ++ [(e2.imageCount, pngEncode img)]
        ∧ (e2.addImage img).imageCount = e2.imageCount + 1)
    ∧ (((buildFold subject ops).toBytes).2.parts
        = MIMEPart.text (htmlBody (buildFold subject ops).elementList)
          :: imagePartsOf (buildFold subject ops)) := by
  refine ⟨?_, ?_, ⟨rfl, rfl, rfl⟩, ?_⟩
  · exact foldl_imageInv ops (Email.init subject) (by simp [Email.init])
  · show (ops.foldl applyOp (Email.init subject)).imageCount = ops.countP isImageOp
    have h := foldl_count ops (Email.init subject)
    simpa [Email.init] using h
  · have hroot := foldl_root ops (Email.init subject)
    show ((buildFold subject ops).toBytes).2.parts = _
    simp only [Email.toBytes, buildFold] at hroot ⊢
    rw [hroot]
    simp [Email.init]

/-- C7: calling `toBytes` `k` times on the same builder is well-defined
but cumulative: the root ends with `k` further copies of the body part
followed by the image parts, while the element and image lists are
untouched (so each call re-attaches the same body and the same images). -/
theorem toBytes_repeated (e : Email) (k : Nat) :
    (iterBytes e k).root.parts
      = e.root.parts
        ++ (List.replicate k
              (MIMEPart.text (htmlBody e.elementList) :: imagePartsOf e)).flatten
    ∧ (iterBytes e k).elementList = e.elementList
    ∧ (iterBytes e k).imageList = e.imageList := by
  induction k generalizing e with
  | zero => simp [iterBytes]
  | succ n ih =>
    obtain ⟨h1, h2, h3⟩ := ih (e.toBytes).1
    refine ⟨?_, h2, h3⟩
    show (iterBytes (e.toBytes).1 n).root.parts = _
    rw [h1]
    show e.root.parts ++ [MIMEPart.text (htmlBody e.elementList)] ++ imagePartsOf e
        ++ (List.replicate n
              (MIMEPart.text (htmlBody e.elementList) :: imagePartsOf e)).flatten = _
    simp [List.replicate_succ, List.append_assoc]
